import Mathlib

/-!
Shallow embedding of `src/docs/check.py` (alert performance checker).

Prices are modelled as rationals (`ℚ`); a Python float value that may be
`None` is an `Option ℚ`.  The network interaction of one request is an
oracle value (`NetResult`): either a transport-level failure (network
error, timeout, non-200, unparseable body) or a decoded JSON payload in
which each of the fields `c`/`h`/`l` may be absent (`none`), JSON null
(`some none`) or a number (`some (some v)`).

`fetch_stock_price` mirrors the Python function of the same name
(lines 31-56): it returns the quote (`None`-triple on any failure), the
updated shared request counter, whether the batch-cooldown sleep of
line 38 ran, and the total time slept during the call (the jitter drawn
by `random.uniform(0, 0.1)` is a parameter).

The body of the per-ticker loop of `main` (lines 93-163) is
`processTicker` / `evalTicker`; the row parsing gives a `Row` whose
`price` is `none` exactly when `float(...)` raised `ValueError`
(the `continue` at line 100).  A `ZeroDivisionError` escaping the loop
(division by a zero alert price at line 124) is `Except.error ()`.
-/

/-- Python truthiness of the module-level `FINNHUB_API_KEY` (line 33):
`None` and the empty string are falsy. -/
def keyPresent : Option String → Bool
  | none => false
  | some s => s ≠ ""

/-- One decoded JSON field of the quote payload: absent, null, or a number. -/
abbrev JsonField := Option (Option ℚ)

/-- Outcome of the HTTP request for one ticker. -/
inductive NetResult where
  | failure : NetResult
  | payload (c h l : JsonField) : NetResult
deriving DecidableEq

/-- Lines 50-51: `float(data.get(k, current))` for the keys h and l:
an absent field defaults to `current`; a null field makes `float(None)`
raise `TypeError`, which the broad `except` of line 53 turns into
"no data". -/
def resolveField : JsonField → ℚ → Option ℚ
  | none, current => some current
  | some none, _ => none
  | some (some x), _ => some x

/-- Result of one `fetch_stock_price` call: the quote triple
(current, high, low) or `none`, the returned request counter, whether
the batch-cooldown sleep of line 38 ran, and the total seconds slept. -/
structure FetchOut where
  quote : Option (ℚ × ℚ × ℚ)
  requestCount : ℕ
  paused : Bool
  slept : ℚ
deriving DecidableEq

/-- Line 17: `REQUEST_DELAY = 0.2`. -/
def REQUEST_DELAY : ℚ := 1/5

/-- Line 18: `MAX_REQUESTS_PER_BATCH = 50`. -/
def MAX_REQUESTS_PER_BATCH : ℕ := 50

/-- Line 19: `BATCH_DELAY = 0.5`. -/
def BATCH_DELAY : ℚ := 1/2

/-- Embedding of `fetch_stock_price(ticker, request_count)` (lines 31-56).  The
ticker symbol only appears in the URL, so it is not a parameter here;
`net` is the network oracle for this request and `jitter` the value
drawn by `random.uniform(0, 0.1)` at line 41. -/
def fetch_stock_price (key : Option String) (net : NetResult) (jitter : ℚ)
    (request_count : ℕ) : FetchOut :=
  if keyPresent key = false then
    { quote := none, requestCount := request_count, paused := false, slept := 0 }
  else
    let paused : Bool :=
      if 0 < request_count ∧ request_count % MAX_REQUESTS_PER_BATCH = 0 then true else false
    let slept : ℚ := (if paused then BATCH_DELAY else 0) + (REQUEST_DELAY + jitter)
    match net with
    | NetResult.failure =>
        { quote := none, requestCount := request_count + 1, paused := paused, slept := slept }
    | NetResult.payload c h l =>
        match c with
        | some (some v) =>
            if v = 0 then
              { quote := none, requestCount := request_count + 1, paused := paused, slept := slept }
            else
              match resolveField h v, resolveField l v with
              | some hv, some lv =>
                  { quote := some (v, hv, lv), requestCount := request_count + 1,
                    paused := paused, slept := slept }
              | _, _ =>
                  { quote := none, requestCount := request_count + 1, paused := paused, slept := slept }
        | _ =>
            { quote := none, requestCount := request_count + 1, paused := paused, slept := slept }

/-- A straight-line sequence of requests threading the shared counter
(as the driver loop of `main` does): returns the final counter and the
number of batch-cooldown pauses incurred. -/
def runRequests (key : Option String) : List NetResult → ℕ → ℕ × ℕ
  | [], rc => (rc, 0)
  | n :: rest, rc =>
      let out := fetch_stock_price key n 0 rc
      let r := runRequests key rest out.requestCount
      (r.1, (if out.paused then 1 else 0) + r.2)

/-! ### Python string plumbing (slicing, `in`, `split`, `strip`) -/

/-- Tests whether `sub` begins `l` (character-exact, as Python substring search). -/
def startsWithSub : List Char → List Char → Bool
  | [], _ => true
  | _ :: _, [] => false
  | a :: as, b :: bs => (a == b) && startsWithSub as bs

/-- Python `sub in s` on the character lists. -/
def hasSub (sub : List Char) : List Char → Bool
  | [] => startsWithSub sub []
  | c :: rest => startsWithSub sub (c :: rest) || hasSub sub rest

/-- Characters of `l` before the first occurrence of `sub`
(Python `s.split(sub)[0]` when `sub in s`). -/
def beforeSub (sub : List Char) : List Char → List Char
  | [] => []
  | c :: rest => if startsWithSub sub (c :: rest) then [] else c :: beforeSub sub rest

/-- Python `s.strip()`: drop whitespace from both ends. -/
def stripList (l : List Char) : List Char :=
  ((l.dropWhile Char.isWhitespace).reverse.dropWhile Char.isWhitespace).reverse

/-- Python slice `s[:n]`. -/
def pyTake (n : ℕ) (s : String) : String := String.mk (s.data.take n)

/-- Lines 105-106: cut the skip reason before the marker `(Bonus:` and
strip it, when the marker occurs; else leave it unchanged. -/
def cleanSkipReason (s : String) : String :=
  if hasSub "(Bonus:".data s.data then String.mk (stripList (beforeSub "(Bonus:".data s.data))
  else s

/-! ### Data model of the driver loop -/

/-- The fields `main` reads from the first CSV row of a ticker
(lines 93-114).  `price` is the result of parsing the Price field:
`none` models the `ValueError` of line 100 (the ticker is skipped); an
absent `Price` column yields `some 0` (the default `0`).  The remaining
fields carry the `.get(..., default)` results. -/
structure Row where
  ticker : String
  price : Option ℚ
  skipReasonRaw : String
  incorporatedRaw : String
  locatedRaw : String
  filedDate : String
  filedTime : String
deriving DecidableEq

/-- The display metadata derived at lines 103-114. -/
structure Meta where
  skipReason : String
  incorporated : String
  located : String
  filedDisplay : String
deriving DecidableEq

/-- Lines 109-114: the combined `filed_display` string. -/
def filedDisplayOf (d t : String) : String :=
  if d ≠ "N/A" ∧ t ≠ "N/A" then d ++ " " ++ pyTake 5 t
  else if d ≠ "N/A" then pyTake 10 d
  else "N/A"

/-- Lines 103-114: extraction of the display metadata from a row. -/
def displayMeta (row : Row) : Meta :=
  { skipReason := cleanSkipReason row.skipReasonRaw
    incorporated := pyTake 10 row.incorporatedRaw
    located := pyTake 10 row.locatedRaw
    filedDisplay := filedDisplayOf row.filedDate row.filedTime }

/-- One entry of the `big_movers` list (lines 145-156). -/
structure BigMover where
  ticker : String
  alert_price : ℚ
  current_price : ℚ
  peak_price : ℚ
  move_pct : ℚ
  peak_move_pct : ℚ
  skip_reason : String
  incorporated : String
  located : String
  filed_display : String
deriving DecidableEq

/-- One printed line of the main table (line 163): the numeric contents
of the row; `none` renders as `"N/A"`. -/
structure ReportRow where
  ticker : String
  alertPrice : ℚ
  currentPrice : Option ℚ
  peakPrice : Option ℚ
  movePct : Option ℚ
  meta : Meta
deriving DecidableEq

/-- The mutable accumulators of the loop of `main` (lines 86-91), plus the
per-ticker printed rows. -/
structure AggState where
  totalMove : ℚ
  winners : ℕ
  count : ℕ
  requestCount : ℕ
  bigMovers : List BigMover
  naTickers : List (String × String)
  reportRows : List ReportRow
deriving DecidableEq

/-- The state at loop entry (lines 86-91). -/
def initState : AggState :=
  { totalMove := 0, winners := 0, count := 0, requestCount := 0,
    bigMovers := [], naTickers := [], reportRows := [] }

/-- Line 122: `max(high, alert_price) if current > alert_price else
min(low, alert_price)`. -/
def peakOf (alert_price current high low : ℚ) : ℚ :=
  if alert_price < current then max high alert_price else min low alert_price

/-- Lines 124 and 126: `((x - alert_price) / alert_price) * 100`. -/
def movePct (alert_price x : ℚ) : ℚ := (x - alert_price) / alert_price * 100

/-- Lines 131-136: the cascaded bands each add `1` to `winners`. -/
def winnersIncrement (move_pct : ℚ) : ℕ :=
  if 50 < move_pct then 1 else if 20 < move_pct then 1 else if 0 < move_pct then 1 else 0

/-- The `else` branch of `if current:` (lines 157-160): current, peak
and move all print `N/A`; the ticker goes to `na_tickers`. -/
def naUpdate (row : Row) (alert_price : ℚ) (st : AggState) : AggState :=
  { st with
    naTickers := st.naTickers ++ [(row.ticker, (displayMeta row).skipReason)]
    reportRows := st.reportRows ++
      [{ ticker := row.ticker, alertPrice := alert_price, currentPrice := none,
         peakPrice := none, movePct := none, meta := displayMeta row }] }

/-- Lines 118-163 given the fetched quote: statistics, big-mover list
and printed row for one ticker.  The Python test `if current:` passes iff the
quote is present with a nonzero current price.  `Except.error ()` is the
`ZeroDivisionError` raised at line 124 when `alert_price == 0` and a
quote is present (uncaught in `main`). -/
def evalTicker (row : Row) (alert_price : ℚ) (quote : Option (ℚ × ℚ × ℚ))
    (st : AggState) : Except Unit AggState :=
  match quote with
  | none => Except.ok (naUpdate row alert_price st)
  | some (current, high, low) =>
      if current = 0 then Except.ok (naUpdate row alert_price st)
      else if alert_price = 0 then Except.error ()
      else
        let meta := displayMeta row
        let peak_price := peakOf alert_price current high low
        let peak_move_pct := movePct alert_price peak_price
        let move_pct := movePct alert_price current
        let st1 :=
          if alert_price < current then
            { st with
              count := st.count + 1
              totalMove := st.totalMove + move_pct
              winners := st.winners + winnersIncrement move_pct }
          else if current < alert_price then
            { st with
              count := st.count + 1
              totalMove := st.totalMove + move_pct }
          else st
        let st2 :=
          if 10 ≤ |move_pct| then
            { st1 with bigMovers := st1.bigMovers ++
              [{ ticker := row.ticker, alert_price := alert_price, current_price := current,
                 peak_price := peak_price, move_pct := move_pct, peak_move_pct := peak_move_pct,
                 skip_reason := meta.skipReason, incorporated := meta.incorporated,
                 located := meta.located, filed_display := meta.filedDisplay }] }
          else st1
        Except.ok { st2 with reportRows := st2.reportRows ++
          [{ ticker := row.ticker, alertPrice := alert_price, currentPrice := some current,
             peakPrice := some peak_price, movePct := some move_pct, meta := meta }] }

/-- One iteration of the ticker loop (lines 93-163): skip on `ValueError`
(line 100), otherwise fetch and evaluate. -/
def processTicker (key : Option String) (net : NetResult) (jitter : ℚ) (row : Row)
    (st : AggState) : Except Unit AggState :=
  match row.price with
  | none => Except.ok st
  | some alert_price =>
      let out := fetch_stock_price key net jitter st.requestCount
      evalTicker row alert_price out.quote { st with requestCount := out.requestCount }

/-- The whole ticker loop: one `(Row, NetResult)` pair per sorted
ticker, `jit i` the jitter drawn during the `i`-th iteration. -/
def runLoop (key : Option String) (jit : ℕ → ℚ) :
    List (Row × NetResult) → ℕ → AggState → Except Unit AggState
  | [], _, st => Except.ok st
  | item :: rest, i, st =>
      match processTicker key item.2 (jit i) item.1 st with
      | Except.error e => Except.error e
      | Except.ok st' => runLoop key jit rest (i + 1) st'

/-- Insertion sort with a boolean "goes before or with" comparator
(Python `sorted`, lines 178 and 191). -/
def insertSorted {α : Type} (le : α → α → Bool) (a : α) : List α → List α
  | [] => [a]
  | b :: rest => if le a b then a :: b :: rest else b :: insertSorted le a rest

/-- Sorting by repeated insertion. -/
def sortListBy {α : Type} (le : α → α → Bool) : List α → List α
  | [] => []
  | a :: rest => insertSorted le a (sortListBy le rest)

/-- The printed summary (lines 165-192). -/
structure Report where
  rows : List ReportRow
  avgMove : ℚ
  winners : ℕ
  count : ℕ
  bigMovers : List BigMover
  naTickers : List (String × String)
deriving DecidableEq

/-- Lines 166-192: average (guarded against `count == 0`), winners,
big movers sorted by descending `abs(move_pct)`, unavailable tickers
sorted by ticker. -/
def buildReport (st : AggState) : Report :=
  { rows := st.reportRows
    avgMove := if 0 < st.count then st.totalMove / (st.count : ℚ) else 0
    winners := st.winners
    count := st.count
    bigMovers := sortListBy (fun a b => decide (|b.move_pct| ≤ |a.move_pct|)) st.bigMovers
    naTickers := sortListBy (fun a b => decide (¬ b.1 < a.1)) st.naTickers }

/-- The whole run from loop entry to the printed summary. -/
def runMain (key : Option String) (jit : ℕ → ℚ) (items : List (Row × NetResult)) :
    Except Unit Report :=
  match runLoop key jit items 0 initState with
  | Except.error e => Except.error e
  | Except.ok st => Except.ok (buildReport st)

/-- Total projection of the loop outcome, defaulting on the error case. -/
def getOk (x : Except Unit AggState) (d : AggState) : AggState :=
  match x with
  | Except.ok st => st
  | Except.error _ => d

deriving instance DecidableEq for Except

/-- The big-mover entry produced at lines 145-156 for a ticker with a
live quote. -/
def bigMoverOf (row : Row) (alert c h l : ℚ) : BigMover :=
  { ticker := row.ticker
    alert_price := alert
    current_price := c
    peak_price := peakOf alert c h l
    move_pct := movePct alert c
    peak_move_pct := movePct alert (peakOf alert c h l)
    skip_reason := (displayMeta row).skipReason
    incorporated := (displayMeta row).incorporated
    located := (displayMeta row).located
    filed_display := (displayMeta row).filedDisplay }

/-- The printed table line (line 163) for a ticker with a live quote. -/
def mainRowOf (row : Row) (alert c h l : ℚ) : ReportRow :=
  { ticker := row.ticker
    alertPrice := alert
    currentPrice := some c
    peakPrice := some (peakOf alert c h l)
    movePct := some (movePct alert c)
    meta := displayMeta row }

/-! ### Concrete inputs for the scenarios -/

/-- Ticker `AAA`, alert price `10.00`, default metadata. -/
def rowA : Row :=
  { ticker := "AAA", price := some 10, skipReasonRaw := "", incorporatedRaw := "N/A",
    locatedRaw := "N/A", filedDate := "N/A", filedTime := "N/A" }

/-- Ticker `BBB`, alert price `10.00`. -/
def rowB : Row := { rowA with ticker := "BBB" }

/-- Successful quote payload: current `12.00`, high `13.00`, low `9.00`. -/
def netA : NetResult :=
  NetResult.payload (some (some 12)) (some (some 13)) (some (some 9))

/-- A later quote for the same ticker: current `11.00`, high `11.00`, low `9.00`. -/
def netA2 : NetResult :=
  NetResult.payload (some (some 11)) (some (some 11)) (some (some 9))

/-- Loop state after processing `rowA` against quote `netA` (scenario A run). -/
def stateA : AggState :=
  getOk (processTicker (some "k") netA 0 rowA initState) initState

/-- Loop state after processing `rowA` against the later quote `netA2`
(a subsequent, independent run of the script). -/
def stateA2 : AggState :=
  getOk (processTicker (some "k") netA2 0 rowA initState) initState

/-- Loop state after processing `rowB` when the live fetch fails (scenario B run). -/
def stateB : AggState :=
  getOk (processTicker (some "k") NetResult.failure 0 rowB initState) initState

/-- Evaluation state for scenario A entered at the `evalTicker` stage. -/
def stateAeval : AggState :=
  getOk (evalTicker rowA 10 (some (12, 13, 9)) initState) initState

/-- A row whose metadata exercises the display normalization: a skip
reason with a `(Bonus: ...)` marker and an `Incorporated` string longer
than 10 characters. -/
def rowC : Row :=
  { ticker := "CCC", price := some 10,
    skipReasonRaw := "thin float (Bonus: insider cluster)",
    incorporatedRaw := "DELAWARE USA", locatedRaw := "CA",
    filedDate := "N/A", filedTime := "N/A" }

attribute [local semireducible] Rat.sub Rat.mul Rat.inv Rat.add

/-! ### Helper lemmas -/

theorem keyPresent_ne (key : Option String) (hk : keyPresent key = true) :
    (keyPresent key = false) = False := by
  simp [hk]

/-- With the credential present, every call consumes one request slot
(all branches of lines 43-56 return `request_count + 1`). -/
theorem fetch_requestCount_succ (key : Option String) (net : NetResult) (jitter : ℚ)
    (rc : ℕ) (hk : keyPresent key = true) :
    (fetch_stock_price key net jitter rc).requestCount = rc + 1 := by
  cases net with
  | failure => simp [fetch_stock_price, hk]
  | payload c h l =>
      rcases c with _ | c
      · simp [fetch_stock_price, hk]
      · rcases c with _ | v
        · simp [fetch_stock_price, hk]
        · by_cases hv : v = 0
          · simp [fetch_stock_price, hk, hv]
          · rcases hh : resolveField h v with _ | hv' <;>
              rcases hl : resolveField l v with _ | lv' <;>
              simp [fetch_stock_price, hk, hv, hh, hl]

/-- With the credential present, the batch cooldown of line 38 runs
exactly when the shared counter is a positive multiple of the batch size. -/
theorem fetch_paused_iff (key : Option String) (net : NetResult) (jitter : ℚ)
    (rc : ℕ) (hk : keyPresent key = true) :
    (fetch_stock_price key net jitter rc).paused =
      decide (0 < rc ∧ rc % MAX_REQUESTS_PER_BATCH = 0) := by
  have hpaused : (if 0 < rc ∧ rc % MAX_REQUESTS_PER_BATCH = 0 then true else false) =
      decide (0 < rc ∧ rc % MAX_REQUESTS_PER_BATCH = 0) := by
    by_cases hp : 0 < rc ∧ rc % MAX_REQUESTS_PER_BATCH = 0 <;> simp [hp]
  cases net with
  | failure => simp [fetch_stock_price, hk, hpaused]
  | payload c h l =>
      rcases c with _ | c
      · simp [fetch_stock_price, hk, hpaused]
      · rcases c with _ | v
        · simp [fetch_stock_price, hk, hpaused]
        · by_cases hv : v = 0
          · simp [fetch_stock_price, hk, hv, hpaused]
          · rcases hh : resolveField h v with _ | hv' <;>
              rcases hl : resolveField l v with _ | lv' <;>
              simp [fetch_stock_price, hk, hv, hh, hl, hpaused]

/-- Normal form of one successful-quote evaluation (lines 120-163): the
statistics, big-mover and printed-row effects, written out. -/
theorem evalTicker_ok_eq (row : Row) (alert c h l : ℚ) (st : AggState)
    (hc : c ≠ 0) (ha : alert ≠ 0) :
    evalTicker row alert (some (c, h, l)) st = Except.ok
      { totalMove := st.totalMove + (if alert < c ∨ c < alert then movePct alert c else 0)
        winners := st.winners + (if alert < c then winnersIncrement (movePct alert c) else 0)
        count := st.count + (if alert < c ∨ c < alert then 1 else 0)
        requestCount := st.requestCount
        bigMovers := st.bigMovers ++
          (if 10 ≤ |movePct alert c| then [bigMoverOf row alert c h l] else [])
        naTickers := st.naTickers
        reportRows := st.reportRows ++ [mainRowOf row alert c h l] } := by
  by_cases h1 : alert < c <;> by_cases h2 : c < alert <;>
    by_cases h3 : 10 ≤ |movePct alert c| <;>
    simp [evalTicker, hc, ha, h1, h2, h3, bigMoverOf, mainRowOf]

/-- Pause count of a straight-line request sequence from an arbitrary
counter value, with the credential present. -/
theorem runRequests_pauses (key : Option String) (hk : keyPresent key = true)
    (nets : List NetResult) : ∀ rc : ℕ,
    (runRequests key nets rc).2 =
      (rc + nets.length - 1) / MAX_REQUESTS_PER_BATCH -
        (rc - 1) / MAX_REQUESTS_PER_BATCH := by
  induction nets with
  | nil => intro rc; simp [runRequests]
  | cons n rest ih =>
      intro rc
      have h1 := fetch_requestCount_succ key n 0 rc hk
      have h2 := fetch_paused_iff key n 0 rc hk
      simp only [runRequests, h1, h2, ih (rc + 1), List.length_cons, MAX_REQUESTS_PER_BATCH]
      by_cases hp : 0 < rc ∧ rc % 50 = 0 <;> simp [hp] <;> omega

/-- The jitter drawn at line 41 influences neither the returned quote
nor the request counter. -/
theorem fetch_jitter_indep (key : Option String) (net : NetResult) (j j' : ℚ) (rc : ℕ) :
    (fetch_stock_price key net j rc).quote = (fetch_stock_price key net j' rc).quote ∧
    (fetch_stock_price key net j rc).requestCount =
      (fetch_stock_price key net j' rc).requestCount := by
  by_cases hk : keyPresent key = false
  · simp [fetch_stock_price, hk]
  · cases net with
    | failure => simp [fetch_stock_price, hk]
    | payload c h l =>
        rcases c with _ | c
        · simp [fetch_stock_price, hk]
        · rcases c with _ | v
          · simp [fetch_stock_price, hk]
          · by_cases hv : v = 0
            · simp [fetch_stock_price, hk, hv]
            · rcases hh : resolveField h v with _ | hv' <;>
                rcases hl : resolveField l v with _ | lv' <;>
                simp [fetch_stock_price, hk, hv, hh, hl]

/-- One loop iteration is unchanged under a different jitter draw. -/
theorem processTicker_jitter_indep (key : Option String) (net : NetResult) (j j' : ℚ)
    (row : Row) (st : AggState) :
    processTicker key net j row st = processTicker key net j' row st := by
  cases hp : row.price with
  | none => simp [processTicker, hp]
  | some alert =>
      have h := fetch_jitter_indep key net j j' st.requestCount
      simp [processTicker, hp, h.1, h.2]

/-- The whole loop is unchanged under a different jitter stream. -/
theorem runLoop_jitter_indep (key : Option String) (jit1 jit2 : ℕ → ℚ)
    (items : List (Row × NetResult)) : ∀ (i : ℕ) (st : AggState),
    runLoop key jit1 items i st = runLoop key jit2 items i st := by
  induction items with
  | nil => intro i st; rfl
  | cons item rest ih =>
      intro i st
      simp only [runLoop, processTicker_jitter_indep key item.2 (jit1 i) (jit2 i) item.1 st]
      cases processTicker key item.2 (jit2 i) item.1 st with
      | error e => rfl
      | ok st' => exact ih (i + 1) st'

/-! ### Claims -/

/-- C2: end-to-end, a ticker with alert price 10.00 and a successful
quote of current 12.00, daily high 13.00, daily low 9.00 is reported
with peak 13.00, peakMovePct +30.0, currentMovePct +20.0, and is
classified as a big mover (|+20.0| ≥ 10), counting as a winner. -/
theorem c2_scenario_a :
    stateA.reportRows.map (fun r => (r.currentPrice, r.peakPrice, r.movePct)) =
      [(some 12, some 13, some 20)] ∧
    stateA.bigMovers.map
        (fun b => (b.ticker, b.current_price, b.peak_price, b.move_pct, b.peak_move_pct)) =
      [("AAA", 12, 13, 20, 30)] ∧
    stateA.winners = 1 ∧ stateA.count = 1 := by
  decide

/-- C7: the claim says a record with alertPrice 0 (or negative) is
excluded from report and aggregates with no exception; the code instead
raises an uncaught ZeroDivisionError at line 124 for alertPrice 0 with
a successful quote, and a negative alertPrice is not excluded at all
(its row and aggregate contributions are produced). -/
theorem c7_zero_alert_divzero :
    processTicker (some "k") netA 0 { rowA with price := some 0 } initState =
      Except.error () ∧
    (getOk (processTicker (some "k") netA 0 { rowA with price := some (-5) } initState)
        initState).reportRows.length = 1 ∧
    (getOk (processTicker (some "k") netA 0 { rowA with price := some (-5) } initState)
        initState).count = 1 := by
  decide

/-- C5 counterexample: with the credential absent and the counter at 0,
`fetch_stock_price` returns the counter unchanged (0), not incremented
to 1 — the claim that the call still consumes a request slot is false. -/
theorem c5_counterexample :
    (fetch_stock_price none NetResult.failure 0 0).requestCount = 0 ∧
    ¬ (fetch_stock_price none NetResult.failure 0 0).requestCount = 0 + 1 := by
  decide

/-- C5 amended: when the credential is missing or empty, every fetch
returns the empty quote immediately with zero sleep, and the shared
request counter is returned unchanged (the call does NOT consume a
request slot). -/
theorem c5_missing_key (key : Option String) (net : NetResult) (jitter : ℚ) (rc : ℕ)
    (hk : keyPresent key = false) :
    fetch_stock_price key net jitter rc =
      { quote := none, requestCount := rc, paused := false, slept := 0 } := by
  simp [fetch_stock_price, hk]

/-- Witness for C5 amended at the empty-string credential. -/
theorem c5_missing_key_witness :
    keyPresent (some "") = false ∧
    fetch_stock_price (some "") NetResult.failure (7/100) 5 =
      { quote := none, requestCount := 5, paused := false, slept := 0 } :=
  ⟨by decide, c5_missing_key (some "") NetResult.failure (7/100) 5 (by decide)⟩

/-- C6: a quote payload whose current-price field is missing, null, or
zero yields an absent quote (no current, high or low) — never a zero
price. -/
theorem c6_bad_current (key : Option String) (c h l : JsonField) (jitter : ℚ) (rc : ℕ)
    (hc : c = none ∨ c = some none ∨ c = some (some 0)) :
    (fetch_stock_price key (NetResult.payload c h l) jitter rc).quote = none := by
  by_cases hk : keyPresent key = false <;>
    rcases hc with rfl | rfl | rfl <;>
    simp [fetch_stock_price, hk]

/-- Witness for C6 at the zero-price payload. -/
theorem c6_bad_current_witness :
    ((some (some (0:ℚ)) : JsonField) = none ∨
      (some (some (0:ℚ)) : JsonField) = some none ∨
      (some (some (0:ℚ)) : JsonField) = some (some 0)) ∧
    (fetch_stock_price (some "k")
        (NetResult.payload (some (some 0)) (some (some 3)) (some (some 1))) 0 3).quote = none :=
  ⟨by decide,
    c6_bad_current (some "k") (some (some 0)) (some (some 3)) (some (some 1)) 0 3 (by decide)⟩

/-- C4 counterexample: 50 requests with the credential present incur 0
batch-cooldown pauses, not floor(50/50) = 1 as the claim states. -/
theorem c4_counterexample :
    keyPresent (some "k") = true ∧
    (runRequests (some "k") (List.replicate 50 NetResult.failure) 0).2 = 0 ∧
    ¬ (runRequests (some "k") (List.replicate 50 NetResult.failure) 0).2 = 50 / 50 := by
  decide

/-- C4 amended: with the credential present, a run of R requests incurs
floor((R-1)/N) batch-cooldown pauses (the cooldown runs before the
requests issued with counter N, 2N, …, i.e. before the (kN+1)-th
request), independent of each request's outcome (any other sequence of
outcomes of the same length pauses identically). -/
theorem c4_pause_count (key : Option String) (nets nets' : List NetResult)
    (hk : keyPresent key = true) (hlen : nets'.length = nets.length) :
    (runRequests key nets 0).2 = (nets.length - 1) / MAX_REQUESTS_PER_BATCH ∧
    (runRequests key nets' 0).2 = (runRequests key nets 0).2 := by
  have h := runRequests_pauses key hk nets 0
  have h' := runRequests_pauses key hk nets' 0
  constructor
  · rw [h]; simp [MAX_REQUESTS_PER_BATCH]
  · rw [h, h', hlen]

/-- C1 counterexample: alert price 10; a run with quote (current 12,
high 13) reports peak 13; a subsequent run with quote (current 11,
high 11) — current still above the alert price — reports peak 11, which
is neither the claimed running maximum max(13, 11, 11) = 13 nor ≥ the
previously reported peak: the reported peak decreased across runs. -/
theorem c1_counterexample :
    stateA.reportRows.map (fun r => r.peakPrice) = [some 13] ∧
    stateA2.reportRows.map (fun r => r.peakPrice) = [some 11] ∧
    ¬ (11 : ℚ) = max (max 13 11) 11 ∧ ¬ (13 : ℚ) ≤ 11 := by
  decide

/-- C1 amended: no peak is stored anywhere; each run recomputes the
reported peak from the quote of that run alone — max(daily high, alertPrice)
when current is above the alert price (hence ≥ both), min(daily low,
alertPrice) otherwise (hence ≤ both) — and a failed fetch reports no
peak at all, so nothing ratchets across runs. -/
theorem c1_per_run_peak (row : Row) (alert c h l : ℚ) (st st' : AggState)
    (ha : alert ≠ 0) (hc : c ≠ 0)
    (he : evalTicker row alert (some (c, h, l)) st = Except.ok st') :
    (st'.reportRows.getLast?).map (fun r => r.peakPrice) =
      some (some (peakOf alert c h l)) ∧
    (alert < c → alert ≤ peakOf alert c h l ∧ h ≤ peakOf alert c h l) ∧
    (¬ alert < c → peakOf alert c h l ≤ alert ∧ peakOf alert c h l ≤ l) ∧
    (evalTicker row alert none st).map (fun s => s.reportRows.map (fun r => r.peakPrice)) =
      Except.ok (st.reportRows.map (fun r => r.peakPrice) ++ [none]) := by
  rw [evalTicker_ok_eq row alert c h l st hc ha] at he
  injection he with h'
  subst h'
  refine ⟨?_, ?_, ?_, ?_⟩
  · simp [mainRowOf]
  · intro h1
    unfold peakOf
    rw [if_pos h1]
    exact ⟨le_max_right h alert, le_max_left h alert⟩
  · intro h1
    unfold peakOf
    rw [if_neg h1]
    exact ⟨min_le_right l alert, min_le_left l alert⟩
  · simp [evalTicker, naUpdate, Except.map]

/-- Witness for C1 amended at the scenario A quote. -/
theorem c1_per_run_peak_witness :
    ((10:ℚ) ≠ 0) ∧ ((12:ℚ) ≠ 0) ∧
    evalTicker rowA 10 (some (12, 13, 9)) initState = Except.ok stateAeval ∧
    ((stateAeval.reportRows.getLast?).map (fun r => r.peakPrice) =
        some (some (peakOf 10 12 13 9)) ∧
      ((10:ℚ) < 12 → (10:ℚ) ≤ peakOf 10 12 13 9 ∧ (13:ℚ) ≤ peakOf 10 12 13 9) ∧
      (¬ (10:ℚ) < 12 → peakOf 10 12 13 9 ≤ 10 ∧ peakOf 10 12 13 9 ≤ 9) ∧
      (evalTicker rowA 10 none initState).map
          (fun s => s.reportRows.map (fun r => r.peakPrice)) =
        Except.ok (initState.reportRows.map (fun r => r.peakPrice) ++ [none])) :=
  ⟨by decide, by decide, by decide,
    c1_per_run_peak rowA 10 12 13 9 initState stateAeval (by decide) (by decide) (by decide)⟩

/-- C3 counterexample: ticker BBB, alert price 10, live fetch fails:
the report row shows current, peak and move all absent (no durable peak
15 is reported), and the ticker contributes nothing to winners, count
or the move total — contrary to the claim that its peak is still
reported and still counted in the aggregates. -/
theorem c3_counterexample :
    stateB.reportRows.map (fun r => (r.currentPrice, r.peakPrice, r.movePct)) =
      [(none, none, none)] ∧
    ¬ stateB.reportRows.map (fun r => r.peakPrice) = [some 15] ∧
    stateB.winners = 0 ∧ stateB.count = 0 ∧ stateB.totalMove = 0 ∧
    ¬ stateB.winners = 1 ∧
    stateB.naTickers = [("BBB", "")] := by
  decide

/-- C3 amended: a ticker whose live fetch fails is reported with
current, peak and movePct all absent, contributes nothing to winners,
count or the move total (so it is excluded from the average), and is
appended to the not-available list with its skip reason. -/
theorem c3_unavailable (key : Option String) (net : NetResult) (jitter : ℚ) (row : Row)
    (alert : ℚ) (st : AggState)
    (hp : row.price = some alert)
    (hq : (fetch_stock_price key net jitter st.requestCount).quote = none) :
    (processTicker key net jitter row st).map (fun s => (s.winners, s.count, s.totalMove)) =
      Except.ok (st.winners, st.count, st.totalMove) ∧
    (processTicker key net jitter row st).map (fun s => s.naTickers) =
      Except.ok (st.naTickers ++ [(row.ticker, (displayMeta row).skipReason)]) ∧
    (processTicker key net jitter row st).map
        (fun s => s.reportRows.map (fun r => (r.currentPrice, r.peakPrice, r.movePct))) =
      Except.ok (st.reportRows.map (fun r => (r.currentPrice, r.peakPrice, r.movePct)) ++
        [(none, none, none)]) := by
  simp [processTicker, hp, hq, evalTicker, naUpdate, Except.map]

/-- Witness for C3 amended at scenario B. -/
theorem c3_unavailable_witness :
    rowB.price = some 10 ∧
    (fetch_stock_price (some "k") NetResult.failure 0 initState.requestCount).quote = none ∧
    ((processTicker (some "k") NetResult.failure 0 rowB initState).map
        (fun s => (s.winners, s.count, s.totalMove)) =
      Except.ok (initState.winners, initState.count, initState.totalMove) ∧
    (processTicker (some "k") NetResult.failure 0 rowB initState).map (fun s => s.naTickers) =
      Except.ok (initState.naTickers ++ [(rowB.ticker, (displayMeta rowB).skipReason)]) ∧
    (processTicker (some "k") NetResult.failure 0 rowB initState).map
        (fun s => s.reportRows.map (fun r => (r.currentPrice, r.peakPrice, r.movePct))) =
      Except.ok (initState.reportRows.map (fun r => (r.currentPrice, r.peakPrice, r.movePct)) ++
        [(none, none, none)])) :=
  ⟨by decide, by decide,
    c3_unavailable (some "k") NetResult.failure 0 rowB 10 initState (by decide) (by decide)⟩

/-- The movement percentage of line 126 is positive exactly when the
current price is above a positive alert price. -/
theorem movePct_pos_iff (alert c : ℚ) (h0 : 0 < alert) :
    0 < movePct alert c ↔ alert < c := by
  unfold movePct
  constructor
  · intro h
    have hmul : 0 < (c - alert) / alert * 100 * alert := mul_pos h h0
    have hkey : (c - alert) / alert * 100 * alert = (c - alert) * 100 := by
      field_simp
    rw [hkey] at hmul
    linarith
  · intro h
    have hdiv : 0 < (c - alert) / alert := div_pos (by linarith) h0
    have h100 : (0:ℚ) < 100 := by norm_num
    exact mul_pos hdiv h100

/-- All three magnitude bands of lines 131-136 add exactly one winner. -/
theorem winnersIncrement_of_pos (m : ℚ) (hm : 0 < m) : winnersIncrement m = 1 := by
  unfold winnersIncrement
  split_ifs with hb1 hb2
  · rfl
  · rfl
  · rfl

/-- The bands never add more than one winner. -/
theorem winnersIncrement_le_one (m : ℚ) : winnersIncrement m ≤ 1 := by
  unfold winnersIncrement
  split_ifs <;> omega

/-- C8: with a live quote (coherent: daily high ≥ current, nonzero
current) and a positive alert price, the ticker adds exactly one to the
winners tally iff the computed peak exceeds the alert price; the three
magnitude bands of lines 131-136 fold into that same single increment
(never more than one). -/
theorem c8_winners_iff (row : Row) (alert c h l : ℚ) (st st' : AggState)
    (h0 : 0 < alert) (hch : c ≤ h) (hc : c ≠ 0)
    (he : evalTicker row alert (some (c, h, l)) st = Except.ok st') :
    (st'.winners = st.winners + 1 ↔ alert < peakOf alert c h l) ∧
    st'.winners ≤ st.winners + 1 ∧
    winnersIncrement (movePct alert c) ≤ 1 := by
  rw [evalTicker_ok_eq row alert c h l st hc h0.ne'] at he
  injection he with h'
  subst h'
  by_cases h1 : alert < c
  · have hpos : 0 < movePct alert c := (movePct_pos_iff alert c h0).2 h1
    have hinc := winnersIncrement_of_pos (movePct alert c) hpos
    have hpeak : alert < peakOf alert c h l := by
      unfold peakOf
      rw [if_pos h1]
      exact lt_max_of_lt_left (lt_of_lt_of_le h1 hch)
    simp [h1, hinc, hpeak]
  · have hpeak : ¬ alert < peakOf alert c h l := by
      unfold peakOf
      rw [if_neg h1]
      exact not_lt.mpr (min_le_right l alert)
    simp [h1, hpeak, winnersIncrement_le_one]

/-- Witness for C8 at the scenario A quote. -/
theorem c8_winners_iff_witness :
    ((0:ℚ) < 10) ∧ ((12:ℚ) ≤ 13) ∧ ((12:ℚ) ≠ 0) ∧
    evalTicker rowA 10 (some (12, 13, 9)) initState = Except.ok stateAeval ∧
    ((stateAeval.winners = initState.winners + 1 ↔ (10:ℚ) < peakOf 10 12 13 9) ∧
      stateAeval.winners ≤ initState.winners + 1 ∧
      winnersIncrement (movePct 10 12) ≤ 1) :=
  ⟨by decide, by decide, by decide, by decide,
    c8_winners_iff rowA 10 12 13 9 initState stateAeval (by decide) (by decide)
      (by decide) (by decide)⟩

/-- C9 counterexample: the display metadata is not passed through
unmodified — the Incorporated field is truncated to 10 characters and the
skip reason is cut at its `(Bonus:` marker. -/
theorem c9_counterexample :
    (displayMeta rowC).incorporated = "DELAWARE U" ∧
    ¬ (displayMeta rowC).incorporated = rowC.incorporatedRaw ∧
    (displayMeta rowC).skipReason = "thin float" ∧
    ¬ (displayMeta rowC).skipReason = rowC.skipReasonRaw := by
  decide

/-- C9 amended: the display metadata is a fixed normalization of the
loaded record (skip reason cut at the `(Bonus:` marker and stripped, incorporation
and location truncated to 10 characters, filing timestamp reformatted);
fields within those limits — no `(Bonus:` marker, at most 10
characters, no filing time — pass through unchanged. -/
theorem c9_display_normalization (row : Row)
    (hsr : hasSub "(Bonus:".data row.skipReasonRaw.data = false)
    (hinc : row.incorporatedRaw.data.length ≤ 10)
    (hloc : row.locatedRaw.data.length ≤ 10)
    (hfd : row.filedDate = "N/A") :
    displayMeta row =
      { skipReason := row.skipReasonRaw
        incorporated := row.incorporatedRaw
        located := row.locatedRaw
        filedDisplay := row.filedDate } := by
  unfold displayMeta cleanSkipReason pyTake filedDisplayOf
  rw [hsr, hfd, List.take_of_length_le hinc, List.take_of_length_le hloc]
  simp

/-- Witness for C9 amended at a row inside all the limits. -/
theorem c9_display_normalization_witness :
    hasSub "(Bonus:".data rowB.skipReasonRaw.data = false ∧
    rowB.incorporatedRaw.data.length ≤ 10 ∧
    rowB.locatedRaw.data.length ≤ 10 ∧
    rowB.filedDate = "N/A" ∧
    displayMeta rowB =
      { skipReason := rowB.skipReasonRaw
        incorporated := rowB.incorporatedRaw
        located := rowB.locatedRaw
        filedDisplay := rowB.filedDate } :=
  ⟨by decide, by decide, by decide, by decide,
    c9_display_normalization rowB (by decide) (by decide) (by decide) (by decide)⟩

/-- C10: over the same records and the same per-ticker network
responses, two runs with different jitter streams produce identical
reports — every computed value (rows, peak, move percentages, winners,
count, average, big-mover and unavailable lists) coincides; the random
jitter influences only sleep durations. -/
theorem c10_report_deterministic (key : Option String) (items : List (Row × NetResult))
    (jit1 jit2 : ℕ → ℚ) :
    runMain key jit1 items = runMain key jit2 items := by
  unfold runMain
  rw [runLoop_jitter_indep key jit1 jit2 items 0 initState]

/-- Witness for C4 amended: 51 failure-requests against 51
success-requests, 1 pause each. -/
theorem c4_pause_count_witness :
    keyPresent (some "k") = true ∧
    (List.replicate 51 (NetResult.payload (some (some 1)) none none)).length =
      (List.replicate 51 NetResult.failure).length ∧
    ((runRequests (some "k") (List.replicate 51 NetResult.failure) 0).2 =
      ((List.replicate 51 NetResult.failure).length - 1) / MAX_REQUESTS_PER_BATCH ∧
     (runRequests (some "k") (List.replicate 51 (NetResult.payload (some (some 1)) none none)) 0).2 =
      (runRequests (some "k") (List.replicate 51 NetResult.failure) 0).2) :=
  ⟨by decide, by decide,
    c4_pause_count (some "k") (List.replicate 51 NetResult.failure)
      (List.replicate 51 (NetResult.payload (some (some 1)) none none))
      (by decide) (by decide)⟩
